import Mathlib

/-!
Shallow embedding of the Flyte serverless entrypoint repository
(`entrypoint_serverless.py`, with the session-storage behaviour exercised by
`diagnostic_simple.py` / `diagnostic_with_flytekit.py`).

Strings are modelled as `List Char` (`Str`); the process environment as an
association list in which the most recent binding wins.  External effects
(the Databricks credential broker, the flytekit entry points, subprocess
execution) are opaque inputs of the corresponding functions, so every
function is pure and executable.
-/

abbrev Str : Type := List Char

abbrev EnvT : Type := List (Str × Str)

/-- `os.environ.get(k)`: the most recent binding of `k`, if any. -/
def envGet (env : EnvT) (k : Str) : Option Str :=
  match env with
  | [] => none
  | (k', v) :: rest => if k' = k then some v else envGet rest k

/-- `os.environ[k] = v`: a fresh binding shadowing any older one. -/
def envSet (env : EnvT) (k v : Str) : EnvT := (k, v) :: env

/-- Python `s.startswith(p)`. -/
def isPfx : Str → Str → Bool
  | [], _ => true
  | _ :: _, [] => false
  | a :: as', b :: bs => if a = b then isPfx as' bs else false

/-- Python `pat in txt` (substring containment). -/
def containsSub (pat : Str) : Str → Bool
  | [] => pat.isEmpty
  | c :: rest => isPfx pat (c :: rest) || containsSub pat rest

/-- Number of positions of `txt` at which `pat` occurs as a substring. -/
def countOcc (pat : Str) : Str → Nat
  | [] => if pat.isEmpty then 1 else 0
  | c :: rest => (if isPfx pat (c :: rest) then 1 else 0) + countOcc pat rest

/-- Python truthiness of an optional string: `None` and `""` are falsy. -/
def truthy : Option Str → Bool
  | none => false
  | some s => !s.isEmpty

/-! ## CredentialResolver (`entrypoint_serverless.py` lines 44-227) -/

/-- `try_get_credential_provider_from_spark_conf` (lines 100-131): the Spark
configuration lookup is the opaque input `conf`; the function returns the
value only when it is truthy (`if provider: return provider`), and `none`
when the key is absent or any exception occurs. -/
def try_get_credential_provider_from_spark_conf (conf : Option Str) : Option Str :=
  match conf with
  | some p => if !p.isEmpty then some p else none
  | none => none

/-- The provider-resolution chain inlined in
`setup_aws_credentials_from_databricks` (lines 148-166): the explicit
argument if truthy, else the `DATABRICKS_SERVICE_CREDENTIAL_PROVIDER`
environment variable if truthy, else the Spark-conf source, else the
hardcoded fallback if truthy, else `none`. -/
def resolveProvider (explicitArg envVar sparkConf fallback : Option Str) : Option Str :=
  let cp1 := explicitArg
  let cp2 := if truthy cp1 then cp1 else envVar
  let cp3 := if truthy cp2 then cp2 else
    try_get_credential_provider_from_spark_conf sparkConf
  if truthy cp3 then cp3
  else if truthy fallback then fallback
  else none

/-- `DEFAULT_CREDENTIAL_PROVIDER` (line 39). -/
def DEFAULT_CREDENTIAL_PROVIDER : Option Str :=
  some "egdataplatform-test-flyte-workflow-access-us-east-1".data

/-- Outcome of the Databricks broker / boto3 interaction inside the `try`
block of `setup_aws_credentials_from_databricks` (lines 170-227):
`importFail` is the `ImportError` branch, `raisesEarly` any exception raised
before the frozen credentials are obtained, `noCreds` the
`session.get_credentials() is None` branch, and `creds` a successful frozen
credential snapshot. -/
inductive BrokerOutcome where
  | importFail : BrokerOutcome
  | raisesEarly : BrokerOutcome
  | noCreds : BrokerOutcome
  | creds (accessKey secretKey : Str) (token : Option Str) : BrokerOutcome
deriving DecidableEq

/-- `setup_aws_credentials_from_databricks` (lines 134-227), as a pure state
transformer on the environment.  Returns the Python return value paired with
the environment after the call.  The AWS exports (lines 198-205) happen only
in the `creds` branch; every failure branch returns `False` with the
environment untouched. -/
def setup_aws_credentials_from_databricks (env : EnvT)
    (credential_provider : Option Str) (sparkConf : Option Str)
    (broker : BrokerOutcome) : Bool × EnvT :=
  match resolveProvider credential_provider
      (envGet env "DATABRICKS_SERVICE_CREDENTIAL_PROVIDER".data)
      sparkConf DEFAULT_CREDENTIAL_PROVIDER with
  | none => (false, env)
  | some _ =>
    match broker with
    | .importFail => (false, env)
    | .raisesEarly => (false, env)
    | .noCreds => (false, env)
    | .creds accessKey secretKey token =>
      let region := (envGet env "AWS_DEFAULT_REGION".data).getD "us-east-1".data
      let e1 := envSet env "AWS_ACCESS_KEY_ID".data accessKey
      let e2 := envSet e1 "AWS_SECRET_ACCESS_KEY".data secretKey
      let e3 := match token with
        | some t => if !t.isEmpty then envSet e2 "AWS_SESSION_TOKEN".data t else e2
        | none => e2
      let e4 := if !region.isEmpty then envSet e3 "AWS_DEFAULT_REGION".data region else e3
      (true, e4)

/-! ## Argument stripping (`parse_credential_provider_from_args`, lines 44-70) -/

/-- The literal prefix `--flyte-credential-provider=`. -/
def credArgPfx : Str := "--flyte-credential-provider=".data

/-- Whether a token is a credential-provider override token. -/
def isCredArg (a : Str) : Bool := isPfx credArgPfx a

/-- Python `arg.split("=", 1)[1]`: everything after the first `=`. -/
def credValue (a : Str) : Str := (a.dropWhile (fun c => !(c = '='))).drop 1

/-- The loop of `parse_credential_provider_from_args` (lines 57-65):
`provider` is overwritten by each matching token, all other tokens are
appended to `remaining` in order. -/
def parseLoop (provider : Option Str) (remaining : List Str) : List Str → Option Str × List Str
  | [] => (provider, remaining)
  | a :: rest =>
    if isCredArg a then parseLoop (some (credValue a)) remaining rest
    else parseLoop provider (remaining ++ [a]) rest

/-- `parse_credential_provider_from_args` (lines 44-70), applied to the raw
argument vector `sys.argv[1:]`. -/
def parse_credential_provider_from_args (argv : List Str) : Option Str × List Str :=
  parseLoop none [] argv

/-- The value carried by the last credential-provider token of the list, if
any (later tokens are inspected first). -/
def lastCred : List Str → Option Str
  | [] => none
  | a :: rest =>
    match lastCred rest with
    | some v => some v
    | none => if isCredArg a then some (credValue a) else none

theorem parseLoop_snd (args : List Str) : ∀ prov rem,
    (parseLoop prov rem args).2 = rem ++ args.filter (fun a => !(isCredArg a)) := by
  induction args with
  | nil => intro prov rem; simp [parseLoop]
  | cons a rest ih =>
    intro prov rem
    by_cases h : isCredArg a
    · simp [parseLoop, h, ih]
    · simp [parseLoop, h, ih]

theorem parseLoop_fst (args : List Str) : ∀ prov rem,
    (parseLoop prov rem args).1 =
      (match lastCred args with
       | some v => some v
       | none => prov) := by
  induction args with
  | nil => intro prov rem; simp [parseLoop, lastCred]
  | cons a rest ih =>
    intro prov rem
    cases hl : lastCred rest with
    | none => by_cases h : isCredArg a <;> simp [parseLoop, h, ih, lastCred, hl]
    | some v => by_cases h : isCredArg a <;> simp [parseLoop, h, ih, lastCred, hl]

/-- C1: credential-provider resolution follows the fixed precedence chain —
explicit argument first, then the environment variable, then the Spark-conf
source (tried only after the environment variable and before the hardcoded
fallback), then the hardcoded fallback, then the `none` source — and the
four concrete precedence equations of the spec hold ("non-empty" / "set" /
"configured" all mean Python-truthy, i.e. present and non-empty, exactly as
the source's `if not credential_provider` tests do). -/
theorem C1_resolve_precedence :
    (∀ a e c f, truthy a = true → resolveProvider a e c f = a) ∧
    (∀ a e c f, truthy a = false → truthy e = true → resolveProvider a e c f = e) ∧
    (∀ a e c f, truthy a = false → truthy e = false →
      truthy (try_get_credential_provider_from_spark_conf c) = true →
      resolveProvider a e c f = try_get_credential_provider_from_spark_conf c) ∧
    (∀ a e c f, truthy a = false → truthy e = false →
      truthy (try_get_credential_provider_from_spark_conf c) = false →
      truthy f = true → resolveProvider a e c f = f) ∧
    (∀ a e c f, truthy a = false → truthy e = false →
      truthy (try_get_credential_provider_from_spark_conf c) = false →
      truthy f = false → resolveProvider a e c f = none) ∧
    resolveProvider (some "X".data) (some "Y".data) none (some "Z".data) = some "X".data ∧
    resolveProvider none (some "Y".data) none (some "Z".data) = some "Y".data ∧
    resolveProvider none none none (some "Z".data) = some "Z".data ∧
    resolveProvider none none none none = none := by
  refine ⟨?_, ?_, ?_, ?_, ?_, by decide, by decide, by decide, by decide⟩ <;>
    (intro a e c f; intros; simp [resolveProvider, *])

/-- Closed witness for C1: the explicit argument `"A"` is non-empty and wins. -/
theorem C1_resolve_precedence_witness :
    truthy (some "A".data) = true ∧
    resolveProvider (some "A".data) none none none = some "A".data :=
  ⟨by decide, C1_resolve_precedence.1 (some "A".data) none none none (by decide)⟩

/-- C7: exactly the tokens starting with `--flyte-credential-provider=` are
removed (wherever they appear), all other tokens are forwarded unchanged and
in order, and on the spec's example vector the parsed provider is `"foo"`
and the forwarded args are `["execute", "a", "b"]`. -/
theorem C7_credential_stripping :
    (∀ args, (parse_credential_provider_from_args args).2 =
      args.filter (fun a => !(isCredArg a))) ∧
    parse_credential_provider_from_args
      ["execute".data, "--flyte-credential-provider=foo".data, "a".data, "b".data] =
      (some "foo".data, ["execute".data, "a".data, "b".data]) := by
  refine ⟨fun args => ?_, by decide⟩
  simpa using parseLoop_snd args none []

/-- C9: when the raw vector contains two or more credential-provider tokens,
every occurrence is stripped from the forwarded arguments and the parsed
provider is the value of the last occurrence. -/
theorem C9_last_credential_token_wins (args : List Str)
    (h : 2 ≤ (args.filter isCredArg).length) :
    (parse_credential_provider_from_args args).1 = lastCred args ∧
    (parse_credential_provider_from_args args).2 =
      args.filter (fun a => !(isCredArg a)) := by
  constructor
  · rw [parse_credential_provider_from_args, parseLoop_fst]
    cases lastCred args <;> simp
  · simpa using parseLoop_snd args none []

/-- Closed witness for C9: two override tokens; the later value `"b"` wins
and both tokens are stripped. -/
theorem C9_last_credential_token_wins_witness :
    2 ≤ (["--flyte-credential-provider=a".data,
          "--flyte-credential-provider=b".data, "x".data].filter isCredArg).length ∧
    (parse_credential_provider_from_args
        ["--flyte-credential-provider=a".data,
         "--flyte-credential-provider=b".data, "x".data]).1 =
      lastCred ["--flyte-credential-provider=a".data,
         "--flyte-credential-provider=b".data, "x".data] ∧
    (parse_credential_provider_from_args
        ["--flyte-credential-provider=a".data,
         "--flyte-credential-provider=b".data, "x".data]).2 =
      (["--flyte-credential-provider=a".data,
         "--flyte-credential-provider=b".data, "x".data].filter (fun a => !(isCredArg a))) :=
  ⟨by decide,
   (C9_last_credential_token_wins _ (by decide)).1,
   (C9_last_credential_token_wins _ (by decide)).2⟩

/-! ## RuntimePatcher (`patch_spark_plugin_on_disk` /
`patch_spark_plugin_for_serverless`, lines 230-356) -/

/-- The sentinel marker (line 248). -/
def sentinel : Str := "SERVERLESS_PATCHED".data

/-- The literal part of the regex pattern of line 279,
`\n    def pre_execute\(self, user_params: ExecutionParameters\)`. -/
def sigLit : Str := "\n    def pre_execute(self, user_params: ExecutionParameters)".data

/-- The replacement text `patch_code` (lines 258-273). -/
def patchCode : Str :=
  ("\n    def pre_execute(self, user_params: ExecutionParameters) -> ExecutionParameters:\n        # SERVERLESS_PATCHED: Modified for Databricks serverless compatibility\n        import os\n        if os.environ.get(\"DATABRICKS_SERVERLESS\") == \"true\" or os.environ.get(\"SPARK_CONNECT_MODE_ENABLED\") == \"1\":\n            import pyspark as _pyspark\n            print(\"[Flyte Serverless] Using serverless-compatible pre_execute\")\n            try:\n                self.sess = _pyspark.sql.SparkSession.builder.getOrCreate()\n                print(\"[Flyte Serverless] ✓ Got SparkSession successfully\")\n            except Exception as e:\n                print(f\"[Flyte Serverless] Warning: Could not get SparkSession: {e}\")\n                self.sess = None\n            return user_params.builder().add_attr(\"SPARK_SESSION\", self.sess).build()\n        \n        # Original pre_execute logic for non-serverless environments follows").data

/-- First occurrence split: `splitFirst pat txt = some (pre, post)` iff `pat`
occurs in `txt` and `txt = pre ++ pat ++ post` with `pre` minimal. -/
def splitFirst (pat : Str) : Str → Option (Str × Str)
  | [] => if pat.isEmpty then some ([], []) else none
  | c :: rest =>
    if isPfx pat (c :: rest) then some ([], (c :: rest).drop pat.length)
    else
      match splitFirst pat rest with
      | some (pre, post) => some (c :: pre, post)
      | none => none

/-- `re.search` / `re.sub` for the pattern of line 279: the first occurrence
of the signature literal, with `[^:]*` then consuming every character up to
the first following `:` (the regex match fails altogether when no colon
follows, since any later literal occurrence would have no colon after it
either).  Returns the text before the match and the text after it. -/
def findPreExecute (content : Str) : Option (Str × Str) :=
  match splitFirst sigLit content with
  | none => none
  | some (before, rest) =>
    match rest.dropWhile (fun c => !(c = ':')) with
    | [] => none
    | d :: after => if d = ':' then some (before, after) else none

/-- Observable outcome of one `patch_spark_plugin_on_disk` call: the Python
return value, whether the artifact file was written, and whether the call
reported the sentinel as already present (line 248-250). -/
structure DiskPatchResult where
  success : Bool
  wrote : Bool
  sentinelPresent : Bool
deriving DecidableEq

/-- The plugin artifact as the patcher sees it: whether
`flytekitplugins.spark.task` is importable (line 239), whether the artifact
may be opened for reading (line 244) and for writing (line 291), and its
text. -/
structure PluginFs where
  importable : Bool
  readable : Bool
  writable : Bool
  content : Str
deriving DecidableEq

/-- `patch_spark_plugin_on_disk` (lines 230-315).  Failure branches
(`ImportError`, `PermissionError` on either open, pattern not found) return
`False` and leave the artifact untouched; the sentinel check (line 248)
short-circuits with `True` and no write; otherwise the first signature match
is replaced by `patch_code` and the file is written. -/
def patch_spark_plugin_on_disk (fs : PluginFs) : DiskPatchResult × PluginFs :=
  if !fs.importable then (⟨false, false, false⟩, fs)
  else if !fs.readable then (⟨false, false, false⟩, fs)
  else if containsSub sentinel fs.content then (⟨true, false, true⟩, fs)
  else
    match findPreExecute fs.content with
    | some (before, after) =>
      if fs.writable then
        (⟨true, true, false⟩, { fs with content := before ++ patchCode ++ after })
      else (⟨false, false, false⟩, fs)
    | none => (⟨false, false, false⟩, fs)

/-- Inputs of `patch_spark_plugin_for_serverless` (lines 318-356): the
artifact state, plus whether the in-memory fallback's second import,
`flytekit.core.context_manager` (line 333), succeeds. -/
structure PatchEnv where
  fs : PluginFs
  flytekitCoreImportable : Bool
deriving DecidableEq

/-- Observable outcome of `patch_spark_plugin_for_serverless`: whether the
in-memory override was installed (line 350), and the artifact afterwards. -/
structure ServerlessPatchResult where
  appliedInMemory : Bool
  fs : PluginFs
deriving DecidableEq

/-- `patch_spark_plugin_for_serverless` (lines 318-356): try the on-disk
patch; on failure fall back to the in-memory override, which itself needs
`flytekitplugins.spark.task` and `flytekit.core.context_manager` to import
(lines 332-333) and otherwise proceeds unpatched. -/
def patch_spark_plugin_for_serverless (p : PatchEnv) : ServerlessPatchResult :=
  let r := patch_spark_plugin_on_disk p.fs
  if r.1.success then ⟨false, r.2⟩
  else if p.fs.importable && p.flytekitCoreImportable then ⟨true, r.2⟩
  else ⟨false, r.2⟩

/-- The guard that `patch_code` injects at the head of `pre_execute`
(lines 259-273): when `DATABRICKS_SERVERLESS == "true"` or
`SPARK_CONNECT_MODE_ENABLED == "1"`, try `getOrCreate` (opaque input); any
acquisition failure is caught and the session set to `None`; the rebuilt
parameters are returned either way.  Result is `some sess` when the guard
path is taken and `none` when control falls through to the original logic. -/
def patched_pre_execute (env : EnvT) (getOrCreateResult : Option Nat) : Option (Option Nat) :=
  if envGet env "DATABRICKS_SERVERLESS".data = some "true".data
      ∨ envGet env "SPARK_CONNECT_MODE_ENABLED".data = some "1".data then
    some getOrCreateResult
  else none

/-! ### Substring lemmas -/

theorem isPfx_iff (p : Str) : ∀ l, isPfx p l = true ↔ ∃ t, l = p ++ t := by
  induction p with
  | nil => intro l; simp [isPfx]
  | cons a as' ih =>
    intro l
    cases l with
    | nil => simp [isPfx]
    | cons b bs =>
      by_cases hab : a = b
      · subst hab
        simp [isPfx, ih]
      · simp only [isPfx, if_neg hab]
        constructor
        · intro hfalse; simp at hfalse
        · rintro ⟨t, ht⟩
          injection ht with h1 _
          exact absurd h1.symm hab

theorem isPfx_extend {p l : Str} (h : isPfx p l = true) (b : Str) :
    isPfx p (l ++ b) = true := by
  obtain ⟨t, rfl⟩ := (isPfx_iff p l).mp h
  exact (isPfx_iff p _).mpr ⟨t ++ b, by simp⟩

theorem contains_of_right {pat b : Str} (h : containsSub pat b = true) :
    ∀ a, containsSub pat (a ++ b) = true := by
  intro a
  induction a with
  | nil => simpa using h
  | cons c a' ih => simp [containsSub, ih]

theorem contains_of_left {pat : Str} : ∀ {a : Str}, containsSub pat a = true →
    ∀ b, containsSub pat (a ++ b) = true := by
  intro a
  induction a with
  | nil =>
    intro h b
    simp only [containsSub, List.isEmpty_iff] at h
    subst h
    cases b <;> simp [containsSub, isPfx]
  | cons c a' ih =>
    intro h b
    simp only [containsSub, Bool.or_eq_true] at h
    rcases h with h | h
    · have := isPfx_extend h b
      simp only [List.cons_append] at this ⊢
      simp [containsSub, this]
    · simp [containsSub, ih h b]

theorem contains_middle {pat m : Str} (h : containsSub pat m = true) (a b : Str) :
    containsSub pat (a ++ m ++ b) = true := by
  have h1 := contains_of_left h b
  have h2 := contains_of_right h1 a
  simpa [List.append_assoc] using h2

theorem count_zero_of_not_contains {pat : Str} : ∀ {l : Str},
    containsSub pat l = false → countOcc pat l = 0 := by
  intro l
  induction l with
  | nil =>
    intro h
    simp only [containsSub] at h
    simp [countOcc, h]
  | cons c rest ih =>
    intro h
    simp only [containsSub, Bool.or_eq_false_iff] at h
    simp [countOcc, h.1, ih h.2]

theorem isPfx_split {pat : Str} : ∀ {l b : Str}, isPfx pat (l ++ b) = true →
    isPfx pat l = true ∨ ∃ t, pat = l ++ t ∧ t ≠ [] ∧ isPfx t b = true := by
  intro l
  induction l generalizing pat with
  | nil =>
    intro b h
    cases pat with
    | nil => exact Or.inl rfl
    | cons p ps => exact Or.inr ⟨p :: ps, rfl, List.cons_ne_nil p ps, h⟩
  | cons x l' ih =>
    intro b h
    cases pat with
    | nil => exact Or.inl rfl
    | cons p ps =>
      simp only [List.cons_append, isPfx] at h
      by_cases hpx : p = x
      · subst hpx
        rw [if_pos rfl] at h
        rcases ih h with hl | ⟨t, hpt, hne, htb⟩
        · exact Or.inl (by simp [isPfx, hl])
        · exact Or.inr ⟨t, by simp [hpt], hne, htb⟩
      · rw [if_neg hpx] at h
        cases h

theorem isPfx_append_head {pat : Str} {c : Char} (hc : c ∉ pat) (b' : Str)
    (l : Str) : isPfx pat (l ++ (c :: b')) = isPfx pat l := by
  cases hpl : isPfx pat l with
  | true => exact isPfx_extend hpl _
  | false =>
    cases hres : isPfx pat (l ++ (c :: b')) with
    | false => rfl
    | true =>
      rcases isPfx_split hres with hl | ⟨t, hpt, hne, htb⟩
      · rw [hpl] at hl; cases hl
      · cases t with
        | nil => exact absurd rfl hne
        | cons t0 t' =>
          simp only [isPfx] at htb
          by_cases ht0 : t0 = c
          · subst ht0
            exact absurd (hpt ▸ List.mem_append_right l (List.mem_cons_self t0 t')) hc
          · rw [if_neg ht0] at htb; cases htb

theorem isPfx_append_last {pat : Str} {c : Char} (hc : c ∉ pat) (l0 b : Str) :
    isPfx pat ((l0 ++ [c]) ++ b) = isPfx pat (l0 ++ [c]) := by
  cases hpl : isPfx pat (l0 ++ [c]) with
  | true => exact isPfx_extend hpl _
  | false =>
    cases hres : isPfx pat ((l0 ++ [c]) ++ b) with
    | false => rfl
    | true =>
      rcases isPfx_split hres with hl | ⟨t, hpt, hne, htb⟩
      · rw [hpl] at hl; cases hl
      · have hcmem : c ∈ pat := by
          rw [hpt]
          exact List.mem_append_left t (List.mem_append_right l0 (List.mem_singleton_self c))
        exact absurd hcmem hc

theorem countOcc_append_head {pat : Str} (hne : ¬pat.isEmpty = true) {c : Char}
    (hc : c ∉ pat) (b' : Str) : ∀ a,
    countOcc pat (a ++ (c :: b')) = countOcc pat a + countOcc pat (c :: b') := by
  intro a
  induction a with
  | nil => simp [countOcc, hne]
  | cons x a' ih =>
    have hpfx := isPfx_append_head hc b' (x :: a')
    simp only [List.cons_append] at hpfx ⊢
    rw [countOcc, countOcc, hpfx, ih, Nat.add_assoc]

theorem countOcc_append_last {pat : Str} (hne : ¬pat.isEmpty = true) {c : Char}
    (hc : c ∉ pat) (b : Str) : ∀ a0,
    countOcc pat ((a0 ++ [c]) ++ b) = countOcc pat (a0 ++ [c]) + countOcc pat b := by
  intro a0
  induction a0 with
  | nil =>
    have hpfx := isPfx_append_last hc [] b
    simp only [List.nil_append, List.singleton_append] at hpfx ⊢
    rw [countOcc, countOcc, hpfx]
    simp [countOcc, hne, Nat.add_assoc]
  | cons x a0' ih =>
    have hpfx := isPfx_append_last hc (x :: a0') b
    simp only [List.cons_append] at hpfx ⊢
    rw [countOcc, countOcc, hpfx, ih, Nat.add_assoc]

theorem drop_len_append (p t : Str) : (p ++ t).drop p.length = t := by
  induction p with
  | nil => simp
  | cons a as' ih => simpa using ih

theorem splitFirst_eq {pat : Str} : ∀ {txt pre post : Str},
    splitFirst pat txt = some (pre, post) → txt = pre ++ pat ++ post := by
  intro txt
  induction txt with
  | nil =>
    intro pre post h
    simp only [splitFirst] at h
    by_cases hp : pat.isEmpty
    · rw [if_pos hp] at h
      obtain ⟨rfl, rfl⟩ := Prod.mk.injEq .. ▸ Option.some.injEq .. ▸ h
      simp [List.isEmpty_iff.mp hp]
    · rw [if_neg hp] at h; cases h
  | cons c rest ih =>
    intro pre post h
    simp only [splitFirst] at h
    by_cases hpfx : isPfx pat (c :: rest)
    · rw [if_pos hpfx] at h
      obtain ⟨t, ht⟩ := (isPfx_iff pat (c :: rest)).mp hpfx
      rw [ht] at h
      rw [drop_len_append] at h
      obtain ⟨rfl, rfl⟩ := Prod.mk.injEq .. ▸ Option.some.injEq .. ▸ h
      simpa using ht
    · rw [if_neg hpfx] at h
      cases hrec : splitFirst pat rest with
      | none => rw [hrec] at h; cases h
      | some pq =>
        obtain ⟨p0, q0⟩ := pq
        rw [hrec] at h
        obtain ⟨rfl, rfl⟩ := Prod.mk.injEq .. ▸ Option.some.injEq .. ▸ h
        have := ih hrec
        simp [this]

theorem findPreExecute_eq {content before after : Str}
    (h : findPreExecute content = some (before, after)) :
    ∃ mid, content = before ++ sigLit ++ mid ++ ':' :: after := by
  unfold findPreExecute at h
  cases hsp : splitFirst sigLit content with
  | none => rw [hsp] at h; cases h
  | some br =>
    obtain ⟨b0, rest⟩ := br
    rw [hsp] at h
    simp only at h
    cases hdw : rest.dropWhile (fun c => !(c = ':')) with
    | nil => rw [hdw] at h; cases h
    | cons d ds =>
      rw [hdw] at h
      simp only at h
      by_cases hd : d = ':'
      · subst hd
        rw [if_pos rfl] at h
        obtain ⟨rfl, rfl⟩ := Prod.mk.injEq .. ▸ Option.some.injEq .. ▸ h
        refine ⟨rest.takeWhile (fun c => !(c = ':')), ?_⟩
        have hrest : rest.takeWhile (fun c => !(c = ':')) ++
            rest.dropWhile (fun c => !(c = ':')) = rest :=
          List.takeWhile_append_dropWhile (fun c => !(c = ':')) rest
        have hc := splitFirst_eq hsp
        rw [hdw] at hrest
        rw [hc]
        conv_lhs => rw [← hrest]
        simp [List.append_assoc]
      · rw [if_neg hd] at h
        cases h

theorem sentinel_ne_empty : ¬sentinel.isEmpty = true := by decide

theorem newline_not_in_sentinel : '\n' ∉ sentinel := by decide

theorem lower_s_not_in_sentinel : 's' ∉ sentinel := by decide

set_option maxRecDepth 40000 in
set_option maxHeartbeats 2000000 in
theorem contains_sentinel_patchCode : containsSub sentinel patchCode = true := by decide

set_option maxRecDepth 40000 in
set_option maxHeartbeats 8000000 in
theorem countOcc_sentinel_patchCode : countOcc sentinel patchCode = 1 := by decide

set_option maxRecDepth 40000 in
theorem patchCode_head : patchCode = '\n' :: patchCode.tail := by decide

set_option maxRecDepth 40000 in
set_option maxHeartbeats 2000000 in
theorem patchCode_last : patchCode = patchCode.dropLast ++ ['s'] := by decide

/-- C2 (amended): for every artifact text that does not yet contain the
sentinel and in which the `pre_execute` signature pattern is found (with the
plugin importable and the artifact readable and writable), invoking the
on-disk patch twice yields exactly one sentinel occurrence — already after
the first call and still after the second — and the second invocation is a
no-op: it reports the sentinel present, performs no file write, and leaves
the artifact state unchanged. -/
theorem C2_patch_idempotent (fs : PluginFs)
    (him : fs.importable = true) (hrd : fs.readable = true) (hwr : fs.writable = true)
    (hs : containsSub sentinel fs.content = false)
    (hp : (findPreExecute fs.content).isSome = true) :
    countOcc sentinel (patch_spark_plugin_on_disk fs).2.content = 1 ∧
    (patch_spark_plugin_on_disk (patch_spark_plugin_on_disk fs).2).1.success = true ∧
    (patch_spark_plugin_on_disk (patch_spark_plugin_on_disk fs).2).1.sentinelPresent = true ∧
    (patch_spark_plugin_on_disk (patch_spark_plugin_on_disk fs).2).1.wrote = false ∧
    (patch_spark_plugin_on_disk (patch_spark_plugin_on_disk fs).2).2 =
      (patch_spark_plugin_on_disk fs).2 ∧
    countOcc sentinel
      (patch_spark_plugin_on_disk (patch_spark_plugin_on_disk fs).2).2.content = 1 := by
  obtain ⟨⟨b, a⟩, hba⟩ := Option.isSome_iff_exists.mp hp
  obtain ⟨mid, hcontent⟩ := findPreExecute_eq hba
  have h1 : patch_spark_plugin_on_disk fs =
      (⟨true, true, false⟩, { fs with content := b ++ (patchCode ++ a) }) := by
    simp [patch_spark_plugin_on_disk, him, hrd, hs, hba, hwr]
  have hnb : containsSub sentinel b = false := by
    by_contra hcb
    rw [Bool.not_eq_false] at hcb
    have hT := contains_of_left hcb (sigLit ++ mid ++ ':' :: a)
    have hU : containsSub sentinel fs.content = true := by
      rw [hcontent]; simpa [List.append_assoc] using hT
    simp [hU] at hs
  have hna : containsSub sentinel a = false := by
    by_contra hca
    rw [Bool.not_eq_false] at hca
    have hT := contains_of_right hca (b ++ sigLit ++ mid ++ [':'])
    have hU : containsSub sentinel fs.content = true := by
      rw [hcontent]; simpa [List.append_assoc] using hT
    simp [hU] at hs
  have hsplit1 : countOcc sentinel (b ++ (patchCode ++ a)) =
      countOcc sentinel b + countOcc sentinel (patchCode ++ a) := by
    have hh := countOcc_append_head sentinel_ne_empty newline_not_in_sentinel
      (patchCode.tail ++ a) b
    rw [show ('\n' :: (patchCode.tail ++ a) : Str) = patchCode ++ a from by
      rw [← List.cons_append, ← patchCode_head]] at hh
    exact hh
  have hsplit2 : countOcc sentinel (patchCode ++ a) =
      countOcc sentinel patchCode + countOcc sentinel a := by
    have hh := countOcc_append_last sentinel_ne_empty lower_s_not_in_sentinel
      a patchCode.dropLast
    rw [← patchCode_last] at hh
    exact hh
  have hcount : countOcc sentinel (b ++ (patchCode ++ a)) = 1 := by
    rw [hsplit1, hsplit2, countOcc_sentinel_patchCode,
      count_zero_of_not_contains hnb, count_zero_of_not_contains hna]
  have hcontains1 : containsSub sentinel (b ++ (patchCode ++ a)) = true := by
    have hm := contains_middle contains_sentinel_patchCode b a
    simpa [List.append_assoc] using hm
  have h2 : patch_spark_plugin_on_disk { fs with content := b ++ (patchCode ++ a) } =
      (⟨true, false, true⟩, { fs with content := b ++ (patchCode ++ a) }) := by
    simp [patch_spark_plugin_on_disk, him, hrd, hcontains1]
  refine ⟨?_, ?_, ?_, ?_, ?_, ?_⟩ <;> simp only [h1, h2] <;>
    first
    | rfl
    | exact hcount

/-- Closed counterexample to C2 as stated: the claim quantifies over *every*
artifact text, but on an artifact that lacks both the sentinel and the
signature pattern (here the empty text) both invocations fail, the artifact
ends with zero sentinel occurrences (not one), and the second invocation
does not report the sentinel present. -/
theorem C2_counterexample :
    countOcc sentinel (patch_spark_plugin_on_disk
        (patch_spark_plugin_on_disk ⟨true, true, true, []⟩).2).2.content = 0 ∧
    (patch_spark_plugin_on_disk
        (patch_spark_plugin_on_disk ⟨true, true, true, []⟩).2).1.sentinelPresent = false := by
  decide

/-- A small artifact carrying the `pre_execute` signature pattern and no
sentinel. -/
def sampleArtifact : Str :=
  ("class PysparkFunctionTask:\n    def pre_execute(self, user_params: ExecutionParameters) -> ExecutionParameters:\n        pass\n").data

set_option maxRecDepth 4000 in
/-- Closed witness for C2: a concrete patchable artifact satisfying the
hypotheses, with the conclusions obtained from the theorem. -/
theorem C2_patch_idempotent_witness :
    ((⟨true, true, true, sampleArtifact⟩ : PluginFs).importable = true ∧
      containsSub sentinel sampleArtifact = false ∧
      (findPreExecute sampleArtifact).isSome = true) ∧
    (countOcc sentinel
        (patch_spark_plugin_on_disk ⟨true, true, true, sampleArtifact⟩).2.content = 1 ∧
      (patch_spark_plugin_on_disk
        (patch_spark_plugin_on_disk ⟨true, true, true, sampleArtifact⟩).2).1.success = true ∧
      (patch_spark_plugin_on_disk
        (patch_spark_plugin_on_disk ⟨true, true, true, sampleArtifact⟩).2).1.sentinelPresent = true ∧
      (patch_spark_plugin_on_disk
        (patch_spark_plugin_on_disk ⟨true, true, true, sampleArtifact⟩).2).1.wrote = false ∧
      (patch_spark_plugin_on_disk
        (patch_spark_plugin_on_disk ⟨true, true, true, sampleArtifact⟩).2).2 =
        (patch_spark_plugin_on_disk ⟨true, true, true, sampleArtifact⟩).2 ∧
      countOcc sentinel (patch_spark_plugin_on_disk
        (patch_spark_plugin_on_disk ⟨true, true, true, sampleArtifact⟩).2).2.content = 1) :=
  ⟨⟨rfl, by decide, by decide⟩,
   C2_patch_idempotent ⟨true, true, true, sampleArtifact⟩ rfl rfl rfl
     (by decide) (by decide)⟩

theorem on_disk_failure_preserves_fs (fs : PluginFs)
    (h : (patch_spark_plugin_on_disk fs).1.success = false) :
    (patch_spark_plugin_on_disk fs).2 = fs := by
  cases him : fs.importable with
  | false => simp [patch_spark_plugin_on_disk, him]
  | true =>
    cases hrd : fs.readable with
    | false => simp [patch_spark_plugin_on_disk, him, hrd]
    | true =>
      cases hcs : containsSub sentinel fs.content with
      | true => simp [patch_spark_plugin_on_disk, him, hrd, hcs] at h
      | false =>
        cases hfp : findPreExecute fs.content with
        | none => simp [patch_spark_plugin_on_disk, him, hrd, hcs, hfp]
        | some ba =>
          obtain ⟨b, a⟩ := ba
          cases hwr : fs.writable with
          | true => simp [patch_spark_plugin_on_disk, him, hrd, hcs, hfp, hwr] at h
          | false => simp [patch_spark_plugin_on_disk, him, hrd, hcs, hfp, hwr]

/-- C5 (amended): whenever the on-disk patch fails, the failed attempt
leaves the artifact state unchanged, and — provided the in-memory
fallback's own imports succeed (`flytekitplugins.spark.task` and
`flytekit.core.context_manager`) — the in-memory override is applied and
reported (`appliedInMemory = true`). -/
theorem C5_patch_fallback (p : PatchEnv)
    (hfail : (patch_spark_plugin_on_disk p.fs).1.success = false) :
    (patch_spark_plugin_for_serverless p).fs = p.fs ∧
    (p.fs.importable = true → p.flytekitCoreImportable = true →
      (patch_spark_plugin_for_serverless p).appliedInMemory = true) := by
  have hpres := on_disk_failure_preserves_fs p.fs hfail
  constructor
  · unfold patch_spark_plugin_for_serverless
    by_cases himp : (p.fs.importable && p.flytekitCoreImportable) = true <;>
      simp [hfail, himp, hpres]
  · intro h1 h2
    simp [patch_spark_plugin_for_serverless, hfail, h1, h2]

/-- Closed counterexample to C5 as stated: when the on-disk patch fails
because the plugin artifact cannot be found (`ImportError`, one of the
claim's own listed reasons), the in-memory fallback's import of
`flytekitplugins.spark.task` fails for the same reason, so the call does
*not* report `appliedInMemory = true`. -/
theorem C5_counterexample :
    (patch_spark_plugin_on_disk (⟨false, true, true, []⟩ : PluginFs)).1.success = false ∧
    (patch_spark_plugin_for_serverless ⟨⟨false, true, true, []⟩, true⟩).appliedInMemory
      = false := by
  decide

set_option maxRecDepth 4000 in
/-- Closed witness for C5: a read-only artifact (write permission denied);
the on-disk patch fails, the artifact is unchanged and the in-memory
override is applied. -/
theorem C5_patch_fallback_witness :
    (patch_spark_plugin_on_disk
        (⟨true, true, false, sampleArtifact⟩ : PluginFs)).1.success = false ∧
    ((patch_spark_plugin_for_serverless
        ⟨⟨true, true, false, sampleArtifact⟩, true⟩).fs =
      (⟨true, true, false, sampleArtifact⟩ : PluginFs) ∧
      ((⟨true, true, false, sampleArtifact⟩ : PluginFs).importable = true →
        true = true →
        (patch_spark_plugin_for_serverless
          ⟨⟨true, true, false, sampleArtifact⟩, true⟩).appliedInMemory = true)) :=
  ⟨by decide, C5_patch_fallback ⟨⟨true, true, false, sampleArtifact⟩, true⟩ (by decide)⟩

/-! ## Dispatcher (`execute_flyte_command_inprocess`, lines 385-457) -/

/-- Result of one in-process invocation of a flytekit entry point:
it returns normally, raises `SystemExit` with an optional code, or raises
any other exception. -/
inductive InnerOutcome where
  | ok : InnerOutcome
  | sysExit : Option Int → InnerOutcome
  | raises : InnerOutcome
deriving DecidableEq

/-- Observable outcome of one dispatcher call: the returned exit code,
whether an inner entry point was invoked in-process, and the argument
vector and environment passed to `subprocess.run` if a subprocess was
spawned (`none` when it was not). -/
structure DispatchOutcome where
  exitCode : Int
  ranInner : Bool
  spawnedArgs : Option (List Str)
  spawnedEnv : Option EnvT
deriving DecidableEq

def pyflyteFastExecuteCmd : Str := "pyflyte-fast-execute".data

def pyflyteExecuteCmd : Str := "pyflyte-execute".data

/-- `execute_flyte_command_inprocess` (lines 385-452).
`flytekitImportOk` is whether `from flytekit.bin.entrypoint import ...`
succeeds (its failure is the outer `ImportError` branch, line 450);
`inner` is the opaque entry-point invocation; `subprocessRun` the opaque
subprocess execution.  For the two known commands a `SystemExit` code is
propagated (`None` mapped to 0, lines 416-417/435-436), any other
exception yields 1 (lines 418-422/437-441) with no subprocess involved;
an unknown command is handed to `subprocess.run(args, env=os.environ.copy())`
and its return code passed through (lines 444-448). -/
def execute_flyte_command_inprocess (flytekitImportOk : Bool)
    (inner : Str → List Str → InnerOutcome)
    (subprocessRun : List Str → EnvT → Int)
    (env : EnvT) : List Str → DispatchOutcome
  | [] => ⟨1, false, none, none⟩
  | cmd :: cmdArgs =>
    if cmd = pyflyteFastExecuteCmd then
      if flytekitImportOk then
        match inner cmd cmdArgs with
        | .ok => ⟨0, true, none, none⟩
        | .sysExit c => ⟨c.getD 0, true, none, none⟩
        | .raises => ⟨1, true, none, none⟩
      else ⟨1, false, none, none⟩
    else if cmd = pyflyteExecuteCmd then
      if flytekitImportOk then
        match inner cmd cmdArgs with
        | .ok => ⟨0, true, none, none⟩
        | .sysExit c => ⟨c.getD 0, true, none, none⟩
        | .raises => ⟨1, true, none, none⟩
      else ⟨1, false, none, none⟩
    else ⟨subprocessRun (cmd :: cmdArgs) env, false, some (cmd :: cmdArgs), some env⟩

/-- `execute_flyte_command` (lines 455-457): delegates to the in-process
dispatcher. -/
def execute_flyte_command (flytekitImportOk : Bool)
    (inner : Str → List Str → InnerOutcome)
    (subprocessRun : List Str → EnvT → Int)
    (env : EnvT) (args : List Str) : DispatchOutcome :=
  execute_flyte_command_inprocess flytekitImportOk inner subprocessRun env args

theorem cmds_ne : ¬(pyflyteExecuteCmd = pyflyteFastExecuteCmd) := by decide

/-- Closed counterexample to C4 as stated: a known command whose in-process
invocation raises is reported as exit code 1 with *no* subprocess spawned —
the dispatcher never retries via the subprocess path (the subprocess stub
here would have returned 7, and `spawnedArgs = none` shows it was never
called). -/
theorem C4_counterexample :
    execute_flyte_command_inprocess true (fun _ _ => .raises) (fun _ _ => 7) []
      [pyflyteExecuteCmd, "a".data] = ⟨1, true, none, none⟩ := by
  decide

/-- C4 (amended): for a known command whose in-process invocation raises a
non-`SystemExit` exception, the dispatcher reports exit code 1 directly,
with no subprocess retry; a `SystemExit` from the inner entry point has its
code propagated (`None` mapped to 0), likewise without any subprocess. -/
theorem C4_no_subprocess_retry (inner : Str → List Str → InnerOutcome)
    (subprocessRun : List Str → EnvT → Int) (env : EnvT) (cmd : Str)
    (rest : List Str)
    (hcmd : cmd = pyflyteFastExecuteCmd ∨ cmd = pyflyteExecuteCmd) :
    (inner cmd rest = .raises →
      execute_flyte_command_inprocess true inner subprocessRun env (cmd :: rest) =
        ⟨1, true, none, none⟩) ∧
    (∀ c, inner cmd rest = .sysExit c →
      execute_flyte_command_inprocess true inner subprocessRun env (cmd :: rest) =
        ⟨c.getD 0, true, none, none⟩) := by
  rcases hcmd with rfl | rfl
  · exact ⟨fun hr => by simp [execute_flyte_command_inprocess, hr],
      fun c hc => by simp [execute_flyte_command_inprocess, hc]⟩
  · exact ⟨fun hr => by simp [execute_flyte_command_inprocess, cmds_ne, hr],
      fun c hc => by simp [execute_flyte_command_inprocess, cmds_ne, hc]⟩

/-- Closed witness for C4 (amended): a known command raising `SystemExit(3)`
has 3 propagated with no subprocess. -/
theorem C4_no_subprocess_retry_witness :
    (pyflyteExecuteCmd = pyflyteFastExecuteCmd ∨ pyflyteExecuteCmd = pyflyteExecuteCmd) ∧
    execute_flyte_command_inprocess true (fun _ _ => .sysExit (some 3)) (fun _ _ => 7) []
      [pyflyteExecuteCmd] = ⟨(some (3 : Int)).getD 0, true, none, none⟩ :=
  ⟨Or.inr rfl,
   (C4_no_subprocess_retry (fun _ _ => .sysExit (some 3)) (fun _ _ => 7) [] _ []
     (Or.inr rfl)).2 (some 3) rfl⟩

/-- C8: for an argument vector whose first element is neither known command,
the dispatcher spawns a subprocess with exactly the full argument vector and
the inherited environment, and returns that subprocess's exit code
unchanged. -/
theorem C8_unknown_command_subprocess (flytekitImportOk : Bool)
    (inner : Str → List Str → InnerOutcome) (subprocessRun : List Str → EnvT → Int)
    (env : EnvT) (cmd : Str) (rest : List Str)
    (h1 : ¬cmd = pyflyteFastExecuteCmd) (h2 : ¬cmd = pyflyteExecuteCmd) :
    execute_flyte_command_inprocess flytekitImportOk inner subprocessRun env (cmd :: rest) =
      ⟨subprocessRun (cmd :: rest) env, false, some (cmd :: rest), some env⟩ := by
  simp [execute_flyte_command_inprocess, h1, h2]

/-- Closed witness for C8: `["mystery-cmd", "--flag"]` is forwarded verbatim
with the inherited environment and the subprocess's exit code (5) returned. -/
theorem C8_unknown_command_subprocess_witness :
    (¬("mystery-cmd".data = pyflyteFastExecuteCmd) ∧
      ¬("mystery-cmd".data = pyflyteExecuteCmd)) ∧
    execute_flyte_command_inprocess true (fun _ _ => .ok) (fun _ _ => 5)
      [("HOME".data, "/root".data)] ["mystery-cmd".data, "--flag".data] =
      ⟨5, false, some ["mystery-cmd".data, "--flag".data],
        some [("HOME".data, "/root".data)]⟩ :=
  ⟨⟨by decide, by decide⟩,
   C8_unknown_command_subprocess true (fun _ _ => .ok) (fun _ _ => 5)
     [("HOME".data, "/root".data)] "mystery-cmd".data ["--flag".data]
     (by decide) (by decide)⟩

/-! ## main (`main`, lines 460-492) -/

/-- The two flag exports of `setup_environment` (lines 362-363):
`DATABRICKS_SERVERLESS = "true"` then `SPARK_CONNECT_MODE = "true"`.
(The plugin patching it also performs is modelled separately by
`patch_spark_plugin_for_serverless`; the working-directory change does not
touch the environment.) -/
def setup_environment_env (env : EnvT) : EnvT :=
  envSet (envSet env "DATABRICKS_SERVERLESS".data "true".data)
    "SPARK_CONNECT_MODE".data "true".data

/-- Observable outcome of one `main` run: the exit status passed to
`sys.exit`, whether an inner entry point ran in-process, any subprocess
argument vector, the credential-configuration result, and whether the
in-memory patch was applied. -/
structure MainTrace where
  exitCode : Int
  ranInner : Bool
  spawnedArgs : Option (List Str)
  credentials_configured : Bool
  appliedInMemory : Bool
deriving DecidableEq

/-- `main` (lines 460-492): parse the credential-provider override, run
`setup_aws_credentials_from_databricks` (non-fatal), run `setup_environment`
(flag exports and plugin patching), then execute the remaining arguments and
exit with the dispatcher's return code.  There is no other exit path. -/
def main_run (env : EnvT) (argv : List Str) (sparkConf : Option Str)
    (broker : BrokerOutcome) (penv : PatchEnv) (flytekitImportOk : Bool)
    (inner : Str → List Str → InnerOutcome)
    (subprocessRun : List Str → EnvT → Int) : MainTrace :=
  let pr := parse_credential_provider_from_args argv
  let sa := setup_aws_credentials_from_databricks env pr.1 sparkConf broker
  let env2 := setup_environment_env sa.2
  let patched := patch_spark_plugin_for_serverless penv
  let d := execute_flyte_command flytekitImportOk inner subprocessRun env2 pr.2
  ⟨d.exitCode, d.ranInner, d.spawnedArgs, sa.1, patched.appliedInMemory⟩

set_option maxRecDepth 4000 in
/-- Closed counterexample to C6 as stated: with the remote-endpoint variable
`SPARK_REMOTE` present and compute-session acquisition failing (the
`getOrCreate` inside the injected guard returns no session), the dispatcher
does not abort before Executing: the inner command runs and the run exits
with code 0 — there is no distinguished nonzero exit.  The third conjunct
shows the guard itself swallowing the acquisition failure (`some none`:
guard taken, no session, normal return). -/
theorem C6_counterexample :
    (main_run [("SPARK_REMOTE".data, "sc://host".data)] [pyflyteExecuteCmd, "task".data]
        none .noCreds ⟨⟨true, true, true, []⟩, true⟩ true (fun _ _ => .ok)
        (fun _ _ => 9)).exitCode = 0 ∧
    (main_run [("SPARK_REMOTE".data, "sc://host".data)] [pyflyteExecuteCmd, "task".data]
        none .noCreds ⟨⟨true, true, true, []⟩, true⟩ true (fun _ _ => .ok)
        (fun _ _ => 9)).ranInner = true ∧
    patched_pre_execute
      (setup_environment_env [("SPARK_REMOTE".data, "sc://host".data)]) none = some none := by
  decide

/-- C6 (amended): compute-session acquisition failure is never fatal and no
distinguished abort exit exists: (1) once `setup_environment` has exported
`DATABRICKS_SERVERLESS = "true"`, the injected `pre_execute` guard catches
any acquisition failure, keeps `sess = None` and returns normally; (2) for
every run whose forwarded command is the known `pyflyte-execute`, `main`
reaches the Executing stage and invokes the inner entry point regardless of
the broker outcome — the same for commands that do not need compute. -/
theorem C6_session_failure_nonfatal :
    (∀ env acq, envGet env "DATABRICKS_SERVERLESS".data = some "true".data →
      patched_pre_execute env acq = some acq) ∧
    (∀ env argv sparkConf broker penv inner subprocessRun rest,
      (parse_credential_provider_from_args argv).2 = pyflyteExecuteCmd :: rest →
      (main_run env argv sparkConf broker penv true inner subprocessRun).ranInner
        = true) := by
  constructor
  · intro env acq h
    simp [patched_pre_execute, h]
  · intro env argv sparkConf broker penv inner subprocessRun rest hparse
    simp only [main_run, execute_flyte_command, hparse]
    simp [execute_flyte_command_inprocess, cmds_ne]
    cases inner pyflyteExecuteCmd rest <;> simp

set_option maxRecDepth 4000 in
/-- Closed witness for C6 (amended): with the serverless flag exported the
guard returns normally on a failed acquisition, and a run whose broker
raises still reaches the Executing stage. -/
theorem C6_session_failure_nonfatal_witness :
    (envGet (setup_environment_env []) "DATABRICKS_SERVERLESS".data = some "true".data ∧
      patched_pre_execute (setup_environment_env []) none = some none) ∧
    ((parse_credential_provider_from_args [pyflyteExecuteCmd]).2 =
        pyflyteExecuteCmd :: [] ∧
      (main_run [] [pyflyteExecuteCmd] none .raisesEarly ⟨⟨true, true, true, []⟩, true⟩
        true (fun _ _ => .raises) (fun _ _ => 3)).ranInner = true) :=
  ⟨⟨by decide, C6_session_failure_nonfatal.1 (setup_environment_env []) none (by decide)⟩,
   ⟨by decide,
    C6_session_failure_nonfatal.2 [] [pyflyteExecuteCmd] none .raisesEarly
      ⟨⟨true, true, true, []⟩, true⟩ (fun _ _ => .raises) (fun _ _ => 3) []
      (by decide)⟩⟩

/-- C10: whenever `setup_aws_credentials_from_databricks` returns `False` —
no provider resolvable, required modules unavailable, any early exception,
or the broker yielding no credentials object — the process environment is
unmodified; in particular none of `AWS_ACCESS_KEY_ID`,
`AWS_SECRET_ACCESS_KEY`, `AWS_SESSION_TOKEN`, `AWS_DEFAULT_REGION` change:
the exports happen only after a non-`None` credentials object is obtained,
and every failure path precedes them. -/
theorem C10_no_export_on_failure (env : EnvT) (cp sparkConf : Option Str)
    (broker : BrokerOutcome)
    (h : (setup_aws_credentials_from_databricks env cp sparkConf broker).1 = false) :
    (setup_aws_credentials_from_databricks env cp sparkConf broker).2 = env ∧
    envGet (setup_aws_credentials_from_databricks env cp sparkConf broker).2
      "AWS_ACCESS_KEY_ID".data = envGet env "AWS_ACCESS_KEY_ID".data ∧
    envGet (setup_aws_credentials_from_databricks env cp sparkConf broker).2
      "AWS_SECRET_ACCESS_KEY".data = envGet env "AWS_SECRET_ACCESS_KEY".data ∧
    envGet (setup_aws_credentials_from_databricks env cp sparkConf broker).2
      "AWS_SESSION_TOKEN".data = envGet env "AWS_SESSION_TOKEN".data ∧
    envGet (setup_aws_credentials_from_databricks env cp sparkConf broker).2
      "AWS_DEFAULT_REGION".data = envGet env "AWS_DEFAULT_REGION".data := by
  have heq : (setup_aws_credentials_from_databricks env cp sparkConf broker).2 = env := by
    cases hr : resolveProvider cp
        (envGet env "DATABRICKS_SERVICE_CREDENTIAL_PROVIDER".data)
        sparkConf DEFAULT_CREDENTIAL_PROVIDER with
    | none => simp [setup_aws_credentials_from_databricks, hr]
    | some v =>
      cases broker with
      | importFail => simp [setup_aws_credentials_from_databricks, hr]
      | raisesEarly => simp [setup_aws_credentials_from_databricks, hr]
      | noCreds => simp [setup_aws_credentials_from_databricks, hr]
      | creds ak sk tok => simp [setup_aws_credentials_from_databricks, hr] at h
  exact ⟨heq, by rw [heq], by rw [heq], by rw [heq], by rw [heq]⟩

/-- Closed witness for C10: the broker yields no credentials object; the
call returns `False` and the environment is untouched. -/
theorem C10_no_export_on_failure_witness :
    (setup_aws_credentials_from_databricks [("X".data, "1".data)] none none
      .noCreds).1 = false ∧
    (setup_aws_credentials_from_databricks [("X".data, "1".data)] none none
      .noCreds).2 = [("X".data, "1".data)] :=
  ⟨by decide,
   (C10_no_export_on_failure [("X".data, "1".data)] none none .noCreds (by decide)).1⟩

/-! ## SessionRegistry (spec §4.2; not implemented under `src/` — the
diagnostics only exercise the two storage slots by hand) -/

/-- Modelled from the spec: the compute engine as seen by
`SessionRegistry.getOrCreate` — an optionally already-active engine-native
session to adopt, and the result of constructing a new session (`none` when
construction fails).  Sessions are identified by opaque `Nat` handles. -/
structure Engine where
  active : Option Nat
  build : Option Nat
deriving DecidableEq

/-- Modelled from the spec: the SessionStore's two slots — the primary
synthetic-module slot and the backup process-attribute slot. -/
structure SessionStore where
  primary : Option Nat
  backup : Option Nat
deriving DecidableEq

/-- Modelled from the spec: `SessionRegistry.getOrCreate` (§4.2) — check the
primary slot, then the backup slot, returning any held session immediately
and filling the other slot on first read; otherwise adopt an already-active
engine session, else construct a new one; on success write the session into
both slots before returning; on failure return failure. -/
def SessionRegistry.getOrCreate (eng : Engine) (s : SessionStore) :
    Option (Nat × SessionStore) :=
  match s.primary, s.backup with
  | some v, some w => some (v, ⟨some v, some w⟩)
  | some v, none => some (v, ⟨some v, some v⟩)
  | none, some v => some (v, ⟨some v, some v⟩)
  | none, none =>
    match eng.active with
    | some v => some (v, ⟨some v, some v⟩)
    | none =>
      match eng.build with
      | some v => some (v, ⟨some v, some v⟩)
      | none => none

/-- C3: session reuse — (1) two sequential `getOrCreate` calls return the
identical session reference, with the session never rebuilt (the second
call's state is unchanged no matter what the engine would now return);
(2) after the first successful call from the empty store both the primary
and the backup slot hold that same reference; (3) for any store satisfying
the both-slots-identical invariant, a successful call leaves both slots
holding the returned reference, so whenever both slots are populated they
reference the identical session. -/
theorem C3_session_reuse :
    (∀ eng eng2 s v s', SessionRegistry.getOrCreate eng s = some (v, s') →
      SessionRegistry.getOrCreate eng2 s' = some (v, s')) ∧
    (∀ eng v s', SessionRegistry.getOrCreate eng ⟨none, none⟩ = some (v, s') →
      s'.primary = some v ∧ s'.backup = some v) ∧
    (∀ eng s v s', (∀ x y, s.primary = some x → s.backup = some y → x = y) →
      SessionRegistry.getOrCreate eng s = some (v, s') →
      s'.primary = some v ∧ s'.backup = some v) := by
  refine ⟨?_, ?_, ?_⟩
  · intro eng eng2 s v s' h
    rcases s with ⟨p, bk⟩
    rcases p with _ | x
    · rcases bk with _ | y
      · rcases hea : eng.active with _ | a
        · rcases heb : eng.build with _ | bb
          · simp [SessionRegistry.getOrCreate, hea, heb] at h
          · simp [SessionRegistry.getOrCreate, hea, heb] at h
            obtain ⟨rfl, rfl⟩ := h
            simp [SessionRegistry.getOrCreate]
        · simp [SessionRegistry.getOrCreate, hea] at h
          obtain ⟨rfl, rfl⟩ := h
          simp [SessionRegistry.getOrCreate]
      · simp [SessionRegistry.getOrCreate] at h
        obtain ⟨rfl, rfl⟩ := h
        simp [SessionRegistry.getOrCreate]
    · rcases bk with _ | y
      · simp [SessionRegistry.getOrCreate] at h
        obtain ⟨rfl, rfl⟩ := h
        simp [SessionRegistry.getOrCreate]
      · simp [SessionRegistry.getOrCreate] at h
        obtain ⟨rfl, rfl⟩ := h
        simp [SessionRegistry.getOrCreate]
  · intro eng v s' h
    rcases hea : eng.active with _ | a
    · rcases heb : eng.build with _ | bb
      · simp [SessionRegistry.getOrCreate, hea, heb] at h
      · simp [SessionRegistry.getOrCreate, hea, heb] at h
        obtain ⟨rfl, rfl⟩ := h
        exact ⟨rfl, rfl⟩
    · simp [SessionRegistry.getOrCreate, hea] at h
      obtain ⟨rfl, rfl⟩ := h
      exact ⟨rfl, rfl⟩
  · intro eng s v s' hinv h
    rcases s with ⟨p, bk⟩
    rcases p with _ | x
    · rcases bk with _ | y
      · rcases hea : eng.active with _ | a
        · rcases heb : eng.build with _ | bb
          · simp [SessionRegistry.getOrCreate, hea, heb] at h
          · simp [SessionRegistry.getOrCreate, hea, heb] at h
            obtain ⟨rfl, rfl⟩ := h
            exact ⟨rfl, rfl⟩
        · simp [SessionRegistry.getOrCreate, hea] at h
          obtain ⟨rfl, rfl⟩ := h
          exact ⟨rfl, rfl⟩
      · simp [SessionRegistry.getOrCreate] at h
        obtain ⟨rfl, rfl⟩ := h
        exact ⟨rfl, rfl⟩
    · rcases bk with _ | y
      · simp [SessionRegistry.getOrCreate] at h
        obtain ⟨rfl, rfl⟩ := h
        exact ⟨rfl, rfl⟩
      · have hxy : x = y := hinv x y rfl rfl
        subst hxy
        simp [SessionRegistry.getOrCreate] at h
        obtain ⟨rfl, rfl⟩ := h
        exact ⟨rfl, rfl⟩

/-- Closed witness for C3: from the empty store with a buildable session 7,
the first call stores 7 in both slots and a second call returns the same
reference with the store unchanged. -/
theorem C3_session_reuse_witness :
    SessionRegistry.getOrCreate ⟨none, some 7⟩ ⟨none, none⟩ =
      some (7, ⟨some 7, some 7⟩) ∧
    SessionRegistry.getOrCreate ⟨none, none⟩ ⟨some 7, some 7⟩ =
      some (7, ⟨some 7, some 7⟩) ∧
    ((⟨some 7, some 7⟩ : SessionStore).primary = some 7 ∧
      (⟨some 7, some 7⟩ : SessionStore).backup = some 7) :=
  ⟨by decide,
   C3_session_reuse.1 ⟨none, some 7⟩ ⟨none, none⟩ ⟨none, none⟩ 7
     ⟨some 7, some 7⟩ (by decide),
   C3_session_reuse.2.1 ⟨none, some 7⟩ 7 ⟨some 7, some 7⟩ (by decide)⟩
